import Mathlib

/-!
Shallow embedding of `src/lib/saganbot.js` (SaganBot, a Slack glossary bot).

The bot receives real-time messages, filters them with four predicates
(`_isChatMessage`, `_isChannelConversation`, `_isFromSaganBot`,
`_isMentioningvRA`), and on success queries a SQLite glossary table and
posts the description back to the channel.  Startup (`_onStart`) resolves
the bot user from the roster, opens the database (exiting the process with
code 1 when the path is missing) and performs a first-run check against
the `INFO` table.

JavaScript particulars modelled explicitly:
  * `undefined` values are modelled with `Option` (`none` = `undefined`);
  * an expression that throws a `TypeError` (property access on
    `undefined`) is modelled by an `Outcome` with `threw := true`;
  * the unary `+` coercion applied to the query term
    (`+queryMessage` on line 75 of the source) is modelled by
    `jsToNumber`, JavaScript ToNumber on strings restricted to decimal
    literals (hex, exponent and Infinity forms are outside the model and
    map to `none`; no theorem below depends on such inputs);
  * `NaN` is modelled as `none : Option Rat`; node-sqlite3 binds a NaN
    number as SQL NULL, modelled by `sqlBind`.
-/

namespace SaganBot

/-- A row of the `GLOSSARY` table: columns `TERM`, `DESCRIPTION`, `PREREQS`. -/
structure Row where
  TERM : String
  DESCRIPTION : String
  PREREQS : String
deriving DecidableEq, Repr

/-- A Slack user from the roster: fields `id` and `name`. -/
structure User where
  id : String
  name : String
deriving DecidableEq, Repr

/-- A Slack channel from the roster: fields `id` and `name`. -/
structure Channel where
  id : String
  name : String
deriving DecidableEq, Repr

/-- An inbound real-time message.  `channel` is `none` when the field is
absent or not a string (the source checks `typeof message.channel ===
"string"`).  An absent or empty `text` are both falsy in the source
(`Boolean(message.text)`), so `text` is a plain `String` with `""` for
the falsy cases. -/
structure Message where
  type : String
  text : String
  user : String
  channel : Option String
deriving DecidableEq, Repr

/-- The `INFO` table, a key-value metadata table with columns `NAME`, `VAL`. -/
abbrev InfoTable := List (String × String)

/-- Process-wide bot state after construction and connection: configured
name (defaulted to "saganbot"), database path, the resolved own user
(`this.user`, `none` before `_loadBotUser` or when the roster scan found
no match), the transport roster (`this.users`, `this.channels`) and the
contents of the two database tables. -/
structure BotState where
  name : String
  dbPath : String
  user : Option User
  users : List User
  channels : List Channel
  glossary : List Row
  info : InfoTable
deriving DecidableEq, Repr

/-- A SQL value as bound by node-sqlite3: NULL, a REAL, or TEXT. -/
inductive SqlValue where
  | null : SqlValue
  | real : Rat → SqlValue
  | text : String → SqlValue
deriving DecidableEq, Repr

/-- Observable effects of a handler run: a diagnostic line on
`console.error`, a `postMessageToChannel` call (text `none` models posting
the JS value `undefined`), or the glossary SELECT with its bound
parameter. -/
inductive Effect where
  | logError : String → Effect
  | post : String → Option String → Bool → Effect
  | dbQuery : SqlValue → Effect
deriving DecidableEq, Repr

/-- Result of running a handler: the effects it performed, and whether it
terminated by an uncaught TypeError (`threw := true`). -/
structure Outcome where
  effects : List Effect
  threw : Bool
deriving DecidableEq, Repr

/-! ## JavaScript string primitives used by the source -/

/-- ASCII lowercasing of one character, as `String.prototype.toLowerCase`
acts on the ASCII range (the only range the theorems below exercise). -/
def lowerChar (c : Char) : Char :=
  if 65 ≤ c.toNat ∧ c.toNat ≤ 90 then Char.ofNat (c.toNat + 32) else c

/-- Model of `text.toLowerCase()`. -/
def jsToLower (s : String) : String :=
  String.mk (s.data.map lowerChar)

/-- Does `needle` match at the head of `hay`?  Helper for `occursIn`. -/
def startsWithL : List Char → List Char → Bool
  | [], _ => true
  | _ :: _, [] => false
  | n :: ns, h :: hs => n == h && startsWithL ns hs

/-- Does `needle` occur as a contiguous substring of `hay`?  This is
`hay.indexOf(needle) > -1` of the source. -/
def occursIn (needle : List Char) : List Char → Bool
  | [] => needle.isEmpty
  | h :: hs => startsWithL needle (h :: hs) || occursIn needle hs

/-- Model of `hay.indexOf(needle) > -1`. -/
def jsContains (hay needle : String) : Bool :=
  occursIn needle.data hay.data

/-- Model of `text.slice(4, text.length)`: drop the first four characters
(yields `""` when the text is shorter). -/
def jsSlice4 (s : String) : String :=
  String.mk (s.data.drop 4)

/-! ## JavaScript ToNumber (the unary `+` on line 75) -/

/-- Numeric value of a digit list, most significant first. -/
def natOfDigits (l : List Char) : Nat :=
  l.foldl (fun a c => a * 10 + (c.toNat - 48)) 0

/-- Parse an unsigned decimal literal `digits [. digits]`; `none` when the
input is not of this shape (which is JS `NaN`). -/
def parseDecCore (l : List Char) : Option Rat :=
  let ip := l.takeWhile Char.isDigit
  let rest := l.dropWhile Char.isDigit
  match rest with
  | [] => if ip.isEmpty then none else some (natOfDigits ip : Rat)
  | '.' :: fr =>
      if fr.all Char.isDigit then
        if ip.isEmpty && fr.isEmpty then none
        else some ((natOfDigits ip : Rat) + (natOfDigits fr : Rat) / ((10 : Rat) ^ fr.length))
      else none
  | _ => none

/-- JS StrWhiteSpace for the purposes of ToNumber (space, tab, line
terminators, vertical tab, form feed, NBSP, BOM). -/
def isJsSpace (c : Char) : Bool :=
  c == ' ' || c == '\t' || c == '\n' || c == '\r'
    || c.toNat == 11 || c.toNat == 12 || c.toNat == 160 || c.toNat == 65279

/-- Strip leading and trailing JS whitespace. -/
def trimJs (l : List Char) : List Char :=
  ((l.dropWhile isJsSpace).reverse.dropWhile isJsSpace).reverse

/-- JavaScript ToNumber on a string (the unary `+` coercion): trim
whitespace, `""` converts to 0, otherwise parse an optionally signed
decimal literal; anything else is `NaN`, modelled `none`.  (Hex, exponent
and Infinity literals are outside this model and also map to `none`; no
theorem below evaluates the model on such inputs.) -/
def jsToNumber (s : String) : Option Rat :=
  let t := trimJs s.data
  if t.isEmpty then some 0
  else match t with
    | '+' :: rest => parseDecCore rest
    | '-' :: rest => (parseDecCore rest).map Neg.neg
    | l => parseDecCore l

/-- node-sqlite3 binds a JS number with `sqlite3_bind_double`; SQLite
stores a NaN double as NULL.  So `NaN` (`none`) binds as `SqlValue.null`. -/
def sqlBind : Option Rat → SqlValue
  | none => SqlValue.null
  | some q => SqlValue.real q

/-- SQLite equality of the bound parameter against a stored TEXT `TERM`
value: NULL compares equal to nothing; TEXT compares by string equality;
a REAL operand is compared after numeric-affinity conversion of the text
(approximated with the same decimal parser; equality fails when the text
is not numeric).  Only the NULL and TEXT cases are exercised by the
theorems below. -/
def sqlEqTerm : SqlValue → String → Bool
  | SqlValue.null, _ => false
  | SqlValue.text s, t => s == t
  | SqlValue.real q, t =>
      match jsToNumber t with
      | some q2 => q == q2
      | none => false

/-- Model of `SELECT DESCRIPTION,PREREQS FROM GLOSSARY WHERE TERM = ?`:
the rows whose `TERM` equals the bound parameter (full rows; only
`DESCRIPTION`/`PREREQS` are ever read). -/
def glossarySelect (g : List Row) (param : SqlValue) : List Row :=
  g.filter (fun r => sqlEqTerm param r.TERM)

/-- `db.all` passes the whole rows array to its callback.  The source then
reads `record.DESCRIPTION` where `record` is that array; a JS array has no
`DESCRIPTION` property, so the access yields `undefined` (`none`) whatever
the rows are. -/
def rowsDESCRIPTION (_rows : List Row) : Option String :=
  none

/-! ## The four message filters -/

/-- Source `_isChatMessage`: `message.type === "message" &&
Boolean(message.text)`. -/
def isChatMessage (m : Message) : Bool :=
  m.type == "message" && m.text != ""

/-- Source `_isChannelConversation`: `typeof message.channel === "string"
&& message.channel[0] === "C"`. -/
def isChannelConversation (m : Message) : Bool :=
  match m.channel with
  | none => false
  | some c =>
      match c.data with
      | [] => false
      | ch :: _ => ch == 'C'

/-- Source `_isMentioningvRA`: the lowercased text contains `"vra"` or
contains `this.name` — note the name is NOT lowercased in the source. -/
def isMentioningvRA (name : String) (m : Message) : Bool :=
  jsContains (jsToLower m.text) "vra" || jsContains (jsToLower m.text) name

/-- Source `_isFromSaganBot`: `message.user === this.user.id`.  When
`this.user` is `undefined` (identity never resolved) the property access
`this.user.id` throws a TypeError, modelled by `none`. -/
def isFromSaganBot (user : Option User) (m : Message) : Option Bool :=
  user.map (fun u => m.user == u.id)

/-! ## Roster helpers -/

/-- Source `_loadBotUser`: `this.users.filter(u => u.name ===
self.name)[0]`; yields `undefined` (`none`) when no roster user matches. -/
def loadBotUser (users : List User) (name : String) : Option User :=
  (users.filter (fun u => u.name == name)).head?

/-- Source `_getChannelById`: `this.channels.filter(item => item.id ===
channelId)[0]`; yields `undefined` (`none`) when the id is absent from the
roster (or the message carried no string channel id). -/
def getChannelById (channels : List Channel) : Option String → Option Channel
  | none => none
  | some cid => (channels.filter (fun item => item.id == cid)).head?

/-! ## Lookup and reply -/

/-- Body of the `db.all` callback in `_replyWithDescription`, applied to
the query result (`Except.error` models the `err` argument being set).
On error: log and return.  On success: resolve the channel by id —
when the id is not in the roster the resolution yields `undefined` and
`channel.name` throws — then post `record.DESCRIPTION` (which is
`undefined`, see `rowsDESCRIPTION`) to that channel as the bot user. -/
def replyCallback (bot : BotState) (chanId : Option String) :
    Except String (List Row) → Outcome
  | Except.error e => { effects := [Effect.logError ("DATABASE ERROR: " ++ e)], threw := false }
  | Except.ok rows =>
      match getChannelById bot.channels chanId with
      | none => { effects := [], threw := true }
      | some ch =>
          { effects := [Effect.post ch.name (rowsDESCRIPTION rows) true], threw := false }

/-- Source `_replyWithDescription`: take the text after the first four
characters, apply the unary `+` coercion, bind the result as the SQL
parameter of the glossary SELECT, and run the callback on the rows.  The
in-memory table model cannot itself error; `replyCallback` keeps the
error branch explicit. -/
def replyWithDescription (bot : BotState) (m : Message) : Outcome :=
  let queryMessage := jsSlice4 m.text
  let param := sqlBind (jsToNumber queryMessage)
  let r := replyCallback bot m.channel (Except.ok (glossarySelect bot.glossary param))
  { effects := Effect.dbQuery param :: r.effects, threw := r.threw }

/-- Source `_onMessage`: the four filters in short-circuit conjunction;
only when all pass is `_replyWithDescription` invoked.  The first two
filters are pure; the third can throw (see `isFromSaganBot`), in which
case neither remaining filter nor the reply runs. -/
def onMessage (bot : BotState) (m : Message) : Outcome :=
  if isChatMessage m && isChannelConversation m then
    match isFromSaganBot bot.user m with
    | none => { effects := [], threw := true }
    | some fromBot =>
        if !fromBot && isMentioningvRA bot.name m then replyWithDescription bot m
        else { effects := [], threw := false }
  else { effects := [], threw := false }

/-! ## Startup sequence -/

/-- The literal text posted by `_welcomeMessage`. -/
def welcomeText : String :=
  "Hello there!\n vRA can be a bummer for a first-time user. Just type a vRA-specific term you wish to invoke my glossary!"

/-- Source `_welcomeMessage`: post the welcome text to
`this.channels[0].name` as the bot user.  With an empty roster,
`this.channels[0]` is `undefined` and `.name` throws. -/
def welcomeMessage (channels : List Channel) : Outcome :=
  match channels.head? with
  | none => { effects := [], threw := true }
  | some ch => { effects := [Effect.post ch.name (some welcomeText) true], threw := false }

/-- Model of `SELECT VAL FROM INFO WHERE NAME = "lastrun" LIMIT 1` under
`db.get`: the `VAL` of the first matching row, `undefined` (`none`) when
there is none. -/
def infoLookup (info : InfoTable) : Option String :=
  (info.find? (fun r => r.1 == "lastrun")).map (fun r => r.2)

/-- Model of `INSERT INTO INFO VALUES("lastrun", ?)`. -/
def insertLastrun (info : InfoTable) (now : String) : InfoTable :=
  info ++ [("lastrun", now)]

/-- Model of `UPDATE INFO SET VAL = ? WHERE NAME = "lastrun"`. -/
def updateLastrun (info : InfoTable) (now : String) : InfoTable :=
  info.map (fun r => if r.1 == "lastrun" then (r.1, now) else r)

/-- Number of `"lastrun"` rows in the `INFO` table. -/
def countLastrun (info : InfoTable) : Nat :=
  info.countP (fun r => r.1 == "lastrun")

/-- Body of the `db.get` callback in `_firstRunCheck`, applied to the
query result.  On error: log and return, table unchanged.  When no record
came back: send the welcome message, then insert a fresh `"lastrun"` row
(the insert does not run when the welcome throws on an empty roster).
When a record exists: update its value to the current time, no message. -/
def firstRunCallback (channels : List Channel) (info : InfoTable) (now : String) :
    Except String (Option String) → Outcome × InfoTable
  | Except.error e =>
      ({ effects := [Effect.logError ("DATABASE ERROR: " ++ e)], threw := false }, info)
  | Except.ok none =>
      match channels.head? with
      | none => ({ effects := [], threw := true }, info)
      | some ch =>
          ({ effects := [Effect.post ch.name (some welcomeText) true], threw := false },
           insertLastrun info now)
  | Except.ok (some _) =>
      ({ effects := [], threw := false }, updateLastrun info now)

/-- Source `_firstRunCheck` on the in-memory table model (the in-memory
query cannot itself error; `firstRunCallback` keeps the error branch
explicit). -/
def firstRunCheck (channels : List Channel) (info : InfoTable) (now : String) :
    Outcome × InfoTable :=
  firstRunCallback channels info now (Except.ok (infoLookup info))

/-- The diagnostic printed by `_connectDb` when the database path is
missing. -/
def dbMissingMsg (p : String) : String :=
  "Database path \"" ++ p ++ "\" does not exists or it\x27s not readable."

/-- Result of the startup sequence: the resolved bot user, the effects
performed, whether a TypeError escaped, the exit code when `process.exit`
was called, and the resulting `INFO` table. -/
structure StartOutcome where
  user : Option User
  effects : List Effect
  threw : Bool
  exit : Option Nat
  info : InfoTable
deriving DecidableEq, Repr

/-- Source `_onStart`: `_loadBotUser(); _connectDb(); _firstRunCheck()`.
`_loadBotUser` only assigns `this.user`.  `_connectDb` checks
`fs.existsSync(this.dbPath)` (the boolean `pathExists` here): when false
it prints the diagnostic and calls `process.exit(1)`, so `_firstRunCheck`
never runs and no message is sent. -/
def onStart (pathExists : Bool) (bot : BotState) (now : String) : StartOutcome :=
  let u := loadBotUser bot.users bot.name
  if pathExists then
    let r := firstRunCheck bot.channels bot.info now
    { user := u, effects := r.1.effects, threw := r.1.threw, exit := none, info := r.2 }
  else
    { user := u, effects := [Effect.logError (dbMissingMsg bot.dbPath)], threw := false,
      exit := some 1, info := bot.info }

/-! ## Shared demonstration inputs (the scenario of the spec, section 8) -/

/-- Glossary store holding the entry term `"cloud"`, description
`"A pool of compute."`. -/
def demoGlossary : List Row :=
  [⟨"cloud", "A pool of compute.", "none"⟩]

/-- Bot state after a successful startup: resolved identity, a public
channel `C123` named `general`, the demo glossary. -/
def demoBot : BotState :=
  { name := "saganbot", dbPath := "data/vra.db",
    user := some ⟨"UBOT", "saganbot"⟩,
    users := [⟨"U1", "alice"⟩, ⟨"UBOT", "saganbot"⟩],
    channels := [⟨"C123", "general"⟩],
    glossary := demoGlossary, info := [] }

/-- The message `"vra cloud"` in public channel `C123` from non-bot user
`U1`. -/
def demoMsg : Message :=
  { type := "message", text := "vra cloud", user := "U1", channel := some "C123" }

/-- The texts of all `postMessageToChannel` calls among some effects. -/
def postedTexts (effs : List Effect) : List (Option String) :=
  effs.filterMap (fun e =>
    match e with
    | Effect.post _ t _ => some t
    | _ => none)

/-! ## Helper lemmas -/

theorem char_toNat_ofNat (n : Nat) (h : n < 55296) : (Char.ofNat n).toNat = n := by
  have hv : n.isValidChar := Or.inl h
  simp [Char.ofNat, hv, Char.ofNatAux, Char.toNat, UInt32.toNat, BitVec.toNat_ofNatLt]

theorem lowerChar_idem (c : Char) : lowerChar (lowerChar c) = lowerChar c := by
  unfold lowerChar
  by_cases h : 65 ≤ c.toNat ∧ c.toNat ≤ 90
  · rw [if_pos h]
    have h2 : (Char.ofNat (c.toNat + 32)).toNat = c.toNat + 32 :=
      char_toNat_ofNat _ (by omega)
    rw [if_neg (by rw [h2]; omega)]
  · rw [if_neg h, if_neg h]

theorem startsWithL_mem {n hay : List Char} (hs : startsWithL n hay = true) :
    ∀ c ∈ n, c ∈ hay := by
  induction n generalizing hay with
  | nil => intro c hc; cases hc
  | cons a ns ih =>
    cases hay with
    | nil => simp [startsWithL] at hs
    | cons b bs =>
      simp only [startsWithL, Bool.and_eq_true, beq_iff_eq] at hs
      intro c hc
      rcases List.mem_cons.mp hc with rfl | hc2
      · rw [hs.1]; exact List.mem_cons_self _ _
      · exact List.mem_cons_of_mem _ (ih hs.2 c hc2)

theorem occursIn_mem {n hay : List Char} (ho : occursIn n hay = true) :
    ∀ c ∈ n, c ∈ hay := by
  induction hay with
  | nil =>
    simp only [occursIn, List.isEmpty_iff] at ho
    subst ho
    intro c hc
    cases hc
  | cons b bs ih =>
    simp only [occursIn, Bool.or_eq_true] at ho
    rcases ho with hstart | hrec
    · exact startsWithL_mem hstart
    · intro c hc
      exact List.mem_cons_of_mem _ (ih hrec c hc)

theorem mem_map_lower_fixed {c : Char} {l : List Char}
    (hc : c ∈ l.map lowerChar) : lowerChar c = c := by
  obtain ⟨d, _, rfl⟩ := List.mem_map.mp hc
  exact lowerChar_idem d

theorem map_lower_eq_self {l : List Char} (h : ∀ c ∈ l, lowerChar c = c) :
    l.map lowerChar = l := by
  induction l with
  | nil => rfl
  | cons a l ih =>
    simp only [List.map_cons, h a (List.mem_cons_self _ _),
      ih (fun c hc => h c (List.mem_cons_of_mem _ hc))]

/-- When the name occurs verbatim in the lowercased text, its lowercased
form also occurs there: every character of the lowercased text is a fixed
point of `lowerChar`, so a verbatim occurrence forces the name to be
already lowercase. -/
theorem jsContains_lower_of_contains {name text : String}
    (h : jsContains (jsToLower text) name = true) :
    jsContains (jsToLower text) (jsToLower name) = true := by
  unfold jsContains jsToLower at h ⊢
  have hmem : ∀ c ∈ name.data, c ∈ text.data.map lowerChar := occursIn_mem h
  have hfix : ∀ c ∈ name.data, lowerChar c = c :=
    fun c hc => mem_map_lower_fixed (hmem c hc)
  rw [show (String.mk (name.data.map lowerChar)).data = name.data.map lowerChar from rfl,
    map_lower_eq_self hfix]
  exact h

theorem infoLookup_eq_none_iff (info : InfoTable) :
    infoLookup info = none ↔ ∀ r ∈ info, ¬(r.1 == "lastrun") = true := by
  rw [infoLookup, Option.map_eq_none', List.find?_eq_none]

theorem countLastrun_eq_zero_of_none {info : InfoTable}
    (h : infoLookup info = none) : countLastrun info = 0 :=
  List.countP_eq_zero.mpr ((infoLookup_eq_none_iff info).mp h)

theorem countLastrun_insert (info : InfoTable) (now : String) :
    countLastrun (insertLastrun info now) = countLastrun info + 1 := by
  unfold countLastrun insertLastrun
  rw [List.countP_append]
  rfl

theorem infoLookup_insert_of_none {info : InfoTable} (now : String)
    (h : infoLookup info = none) :
    infoLookup (insertLastrun info now) = some now := by
  unfold infoLookup at h ⊢
  unfold insertLastrun
  rw [Option.map_eq_none'] at h
  induction info with
  | nil => simp
  | cons r rest ih =>
    have hp : ¬((r.1 == "lastrun") = true) := by
      intro hc
      rw [List.find?_cons_of_pos (p := fun x : String × String => x.1 == "lastrun") _ hc] at h
      exact Option.noConfusion h
    rw [List.find?_cons_of_neg (p := fun x : String × String => x.1 == "lastrun") _ hp] at h
    rw [List.cons_append, List.find?_cons_of_neg (p := fun x : String × String => x.1 == "lastrun") _ hp]
    exact ih h

theorem infoLookup_update_of_some {info : InfoTable} (now : String)
    (h : infoLookup info ≠ none) :
    infoLookup (updateLastrun info now) = some now := by
  unfold infoLookup at h ⊢
  unfold updateLastrun
  rw [Ne, Option.map_eq_none'] at h
  induction info with
  | nil => simp [List.find?] at h
  | cons r rest ih =>
    by_cases hp : (r.1 == "lastrun") = true
    · simp only [List.map_cons, if_pos hp]
      rw [List.find?_cons_of_pos (p := fun x : String × String => x.1 == "lastrun")
        (a := (r.1, now)) _ hp]
      rfl
    · rw [List.find?_cons_of_neg (p := fun x : String × String => x.1 == "lastrun") _ hp] at h
      simp only [List.map_cons, if_neg hp]
      rw [List.find?_cons_of_neg (p := fun x : String × String => x.1 == "lastrun") _ hp]
      exact ih h

theorem countLastrun_update (info : InfoTable) (now : String) :
    countLastrun (updateLastrun info now) = countLastrun info := by
  unfold countLastrun updateLastrun
  induction info with
  | nil => rfl
  | cons r rest ih =>
    by_cases hp : (r.1 == "lastrun") = true
    · simp only [List.map_cons, if_pos hp, List.countP_cons, ih]
    · simp only [List.map_cons, if_neg hp, List.countP_cons, ih]

/-! ## Claim theorems -/

/-- C1: the spec scenario claims that with the glossary entry
`"cloud" ↦ "A pool of compute."` the message `"vra cloud"` (public
channel, non-bot author) makes the bot post exactly
`"A pool of compute."`.  Evaluating the code model at that input shows
the divergence: the unary `+` coercion turns `"cloud"` into NaN, bound
as SQL NULL, so the SELECT matches nothing; and the callback reads
`DESCRIPTION` off the rows array, which is `undefined` — the bot posts
the JS value `undefined` (`none`), never `"A pool of compute."`. -/
theorem c1_cloud_scenario_code_divergence :
    onMessage demoBot demoMsg =
      { effects := [Effect.dbQuery SqlValue.null, Effect.post "general" none true],
        threw := false }
    ∧ some "A pool of compute." ∉ postedTexts (onMessage demoBot demoMsg).effects := by
  decide

/-- C2: the spec claims the query term (the text with its leading 4
characters removed) is passed through verbatim and the lookup selects the
row whose `TERM` equals it.  The extraction is indeed `slice(4)`, but the
code then applies the unary `+` coercion before binding: for
`"vra cloud"` the bound parameter is NULL, not the string `"cloud"`, and
the SELECT returns nothing even though a `"cloud"` row is present (a
verbatim TEXT binding would have matched it). -/
theorem c2_term_binding_divergence :
    jsSlice4 demoMsg.text = "cloud"
    ∧ sqlBind (jsToNumber (jsSlice4 demoMsg.text)) = SqlValue.null
    ∧ SqlValue.null ≠ SqlValue.text "cloud"
    ∧ glossarySelect demoGlossary (sqlBind (jsToNumber (jsSlice4 demoMsg.text))) = []
    ∧ glossarySelect demoGlossary (SqlValue.text "cloud") = demoGlossary := by
  decide

/-- C3: on an activation where no `"lastrun"` record exists, exactly one
welcome message is sent (to the first channel of the roster) and exactly
one `"lastrun"` record is inserted; on an activation where the record
exists, its value is updated to the current timestamp and no welcome
message is sent. -/
theorem c3_firstRunCheck_welcome_once (channels : List Channel) (info : InfoTable)
    (now : String) :
    (infoLookup info = none →
      countLastrun info = 0 ∧
      ∀ ch, channels.head? = some ch →
        (firstRunCheck channels info now).1 =
          { effects := [Effect.post ch.name (some welcomeText) true], threw := false }
        ∧ countLastrun (firstRunCheck channels info now).2 = 1
        ∧ infoLookup (firstRunCheck channels info now).2 = some now)
    ∧ (∀ v, infoLookup info = some v →
        (firstRunCheck channels info now).1 = { effects := [], threw := false }
        ∧ infoLookup (firstRunCheck channels info now).2 = some now
        ∧ countLastrun (firstRunCheck channels info now).2 = countLastrun info) := by
  constructor
  · intro h
    refine ⟨countLastrun_eq_zero_of_none h, fun ch hch => ?_⟩
    have he : firstRunCheck channels info now =
        ({ effects := [Effect.post ch.name (some welcomeText) true], threw := false },
         insertLastrun info now) := by
      unfold firstRunCheck firstRunCallback
      rw [h, hch]
    rw [he]
    refine ⟨rfl, ?_, infoLookup_insert_of_none now h⟩
    rw [show (({ effects := [Effect.post ch.name (some welcomeText) true], threw := false },
        insertLastrun info now) :
        Outcome × InfoTable).2 = insertLastrun info now from rfl]
    rw [countLastrun_insert, countLastrun_eq_zero_of_none h]
  · intro v h
    have he : firstRunCheck channels info now =
        ({ effects := [], threw := false }, updateLastrun info now) := by
      unfold firstRunCheck firstRunCallback
      rw [h]
    rw [he]
    exact ⟨rfl, infoLookup_update_of_some now (by rw [h]; exact fun hc => Option.noConfusion hc),
      countLastrun_update info now⟩

/-- Witness for C3: both branches of `c3_firstRunCheck_welcome_once` at
concrete inputs (first run on an empty table, then a run with an existing
record). -/
theorem c3_firstRunCheck_welcome_once_witness :
    (countLastrun ([] : InfoTable) = 0
      ∧ ((firstRunCheck [⟨"C123", "general"⟩] [] "T1").1 =
          { effects := [Effect.post "general" (some welcomeText) true], threw := false }
        ∧ countLastrun (firstRunCheck [⟨"C123", "general"⟩] [] "T1").2 = 1
        ∧ infoLookup (firstRunCheck [⟨"C123", "general"⟩] [] "T1").2 = some "T1"))
    ∧ ((firstRunCheck [⟨"C123", "general"⟩] [("lastrun", "old")] "T2").1 =
          { effects := [], threw := false }
      ∧ infoLookup (firstRunCheck [⟨"C123", "general"⟩] [("lastrun", "old")] "T2").2 = some "T2"
      ∧ countLastrun (firstRunCheck [⟨"C123", "general"⟩] [("lastrun", "old")] "T2").2
          = countLastrun [("lastrun", "old")]) := by
  constructor
  · have h := (c3_firstRunCheck_welcome_once [⟨"C123", "general"⟩] [] "T1").1 rfl
    exact ⟨h.1, h.2 ⟨"C123", "general"⟩ rfl⟩
  · exact (c3_firstRunCheck_welcome_once [⟨"C123", "general"⟩] [("lastrun", "old")] "T2").2
      "old" rfl

/-- C4: for every inbound message whose author id equals the resolved bot
identity id, no reply is sent — the handler performs no effect at all. -/
theorem c4_no_self_reply (bot : BotState) (m : Message) (u : User)
    (hu : bot.user = some u) (hid : m.user = u.id) :
    onMessage bot m = { effects := [], threw := false } := by
  have hf : isFromSaganBot bot.user m = some true := by
    rw [hu]
    simp [isFromSaganBot, hid]
  unfold onMessage
  by_cases hc : (isChatMessage m && isChannelConversation m) = true
  · rw [if_pos hc, hf]
    rfl
  · rw [if_neg hc]

/-- Witness for C4: the message authored by the bot user id `UBOT`
produces no effect. -/
theorem c4_no_self_reply_witness :
    onMessage demoBot
        { type := "message", text := "vra cloud", user := "UBOT", channel := some "C123" } =
      { effects := [], threw := false } :=
  c4_no_self_reply demoBot
    { type := "message", text := "vra cloud", user := "UBOT", channel := some "C123" }
    ⟨"UBOT", "saganbot"⟩ rfl rfl

/-- Counterexample to C5 as stated: with a roster containing no user named
`"saganbot"` the identity is unset, but the self-authorship check does NOT
evaluate to `false` — it fails (TypeError on `this.user.id`, modelled
`none`). -/
theorem c5_unset_check_not_false :
    loadBotUser [⟨"U1", "alice"⟩] "saganbot" = none
    ∧ isFromSaganBot (loadBotUser [⟨"U1", "alice"⟩] "saganbot") demoMsg ≠ some false := by
  decide

/-- C5 (amended): if the startup roster scan finds no user whose name
matches the configured bot name, the identity remains unset and the later
self-authorship check throws (accesses `.id` of `undefined`) for every
message, rather than evaluating to false. -/
theorem c5_unset_check_throws (users : List User) (name : String)
    (h : ∀ u ∈ users, u.name ≠ name) :
    loadBotUser users name = none
    ∧ ∀ m : Message, isFromSaganBot (loadBotUser users name) m = none := by
  have hl : loadBotUser users name = none := by
    unfold loadBotUser
    rw [List.head?_eq_none_iff, List.filter_eq_nil_iff]
    intro u hu
    simpa using h u hu
  exact ⟨hl, fun m => by rw [hl]; rfl⟩

/-- Witness for C5 (amended) at a concrete roster without the configured
name. -/
theorem c5_unset_check_throws_witness :
    loadBotUser [⟨"U1", "alice"⟩] "glossarybot" = none
    ∧ ∀ m : Message, isFromSaganBot (loadBotUser [⟨"U1", "alice"⟩] "glossarybot") m = none :=
  c5_unset_check_throws [⟨"U1", "alice"⟩] "glossarybot" (by decide)

/-- The mentions trigger as the spec words it ("the lowercase text body
contains the trigger keyword or the bot's own lowercase name as a
substring") — stated for comparison with the source predicate
`isMentioningvRA`, which does not lowercase the name. -/
def specMentionsTrigger (name : String) (m : Message) : Bool :=
  jsContains (jsToLower m.text) "vra" || jsContains (jsToLower m.text) (jsToLower name)

/-- A message whose lowercase text contains the lowercase of the name
`"SaganBot"` but not the name verbatim. -/
def mixedCaseMsg : Message :=
  { type := "message", text := "Saganbot rocks", user := "U1", channel := some "C123" }

/-- Counterexample to C6 as stated: with bot name `"SaganBot"` and text
`"Saganbot rocks"`, the lowercase text contains the bot's lowercase name
(the spec-side predicate holds) yet the source predicate is false — the
claimed "exactly when" fails, because the source compares against the
name without lowercasing it. -/
theorem c6_mentions_not_lowercase_name :
    specMentionsTrigger "SaganBot" mixedCaseMsg = true
    ∧ isMentioningvRA "SaganBot" mixedCaseMsg = false := by
  decide

/-- C6 (amended): the mentions-trigger predicate holds exactly when the
lowercase text contains `"vra"` or the bot's name VERBATIM (not
lowercased); the second half of the claim stands: for every message whose
lowercase text contains neither `"vra"` nor the bot's lowercase name, no
reply (indeed no effect) occurs — a verbatim occurrence of the name in
all-lowercase text forces the name to be already lowercase. -/
theorem c6_mentions_characterization :
    (∀ (name : String) (m : Message),
      isMentioningvRA name m = true ↔
        (jsContains (jsToLower m.text) "vra" = true
          ∨ jsContains (jsToLower m.text) name = true))
    ∧ (∀ (bot : BotState) (m : Message),
        jsContains (jsToLower m.text) "vra" = false →
        jsContains (jsToLower m.text) (jsToLower bot.name) = false →
        (onMessage bot m).effects = []) := by
  constructor
  · intro name m
    unfold isMentioningvRA
    rw [Bool.or_eq_true]
  · intro bot m h1 h2
    have hm : isMentioningvRA bot.name m = false := by
      unfold isMentioningvRA
      rw [h1, Bool.false_or]
      cases hb : jsContains (jsToLower m.text) bot.name with
      | false => rfl
      | true =>
        rw [jsContains_lower_of_contains hb] at h2
        exact Bool.noConfusion h2
    unfold onMessage
    by_cases hc : (isChatMessage m && isChannelConversation m) = true
    · rw [if_pos hc]
      cases hf : isFromSaganBot bot.user m with
      | none => rfl
      | some b => cases b <;> simp [hm]
    · rw [if_neg hc]

/-- Witness for C6 (amended): the characterization at concrete inputs and
the no-reply consequence for `"hello world"`, which mentions neither. -/
theorem c6_mentions_characterization_witness :
    (isMentioningvRA "saganbot" demoMsg = true ↔
      (jsContains (jsToLower demoMsg.text) "vra" = true
        ∨ jsContains (jsToLower demoMsg.text) "saganbot" = true))
    ∧ (onMessage demoBot
        { type := "message", text := "hello world", user := "U1",
          channel := some "C123" }).effects = [] :=
  ⟨c6_mentions_characterization.1 "saganbot" demoMsg,
   c6_mentions_characterization.2 demoBot
     { type := "message", text := "hello world", user := "U1", channel := some "C123" }
     (by decide) (by decide)⟩

/-- C7: a message failing any of the four predicates (not a chat message,
not a channel conversation, self-authored, or not mentioning the trigger)
produces no store query, no reply, and no side effect at all. -/
theorem c7_short_circuit (bot : BotState) (m : Message)
    (h : isChatMessage m = false ∨ isChannelConversation m = false ∨
         isFromSaganBot bot.user m = some true ∨ isMentioningvRA bot.name m = false) :
    (onMessage bot m).effects = [] := by
  unfold onMessage
  by_cases hc : (isChatMessage m && isChannelConversation m) = true
  · rw [if_pos hc]
    rw [Bool.and_eq_true] at hc
    rcases h with h | h | h | h
    · rw [h] at hc
      exact Bool.noConfusion hc.1
    · rw [h] at hc
      exact Bool.noConfusion hc.2
    · rw [h]
      rfl
    · cases hf : isFromSaganBot bot.user m with
      | none => rfl
      | some b => cases b <;> simp [h]
  · rw [if_neg hc]

/-- Witness for C7: a `user_typing` event (fails the first predicate)
produces no effect. -/
theorem c7_short_circuit_witness :
    (onMessage demoBot
      { type := "user_typing", text := "", user := "U1", channel := some "C123" }).effects
      = [] :=
  c7_short_circuit demoBot
    { type := "user_typing", text := "", user := "U1", channel := some "C123" }
    (Or.inl (by decide))

/-- C8: when the configured store path does not exist at startup, the
process exits with code 1 after printing the diagnostic, and no transport
message is sent (the first-run check never runs). -/
theorem c8_missing_db_exit (bot : BotState) (now : String) :
    (onStart false bot now).exit = some 1
    ∧ (onStart false bot now).effects = [Effect.logError (dbMissingMsg bot.dbPath)]
    ∧ postedTexts (onStart false bot now).effects = [] :=
  ⟨rfl, rfl, rfl⟩

/-- C9: when the store query of the reply path returns an error, the
error is logged and the handler aborts — no reply is posted and the
callback returns normally (no throw, so subsequent events keep being
served). -/
theorem c9_query_error_no_reply (bot : BotState) (chanId : Option String) (e : String) :
    replyCallback bot chanId (Except.error e)
      = { effects := [Effect.logError ("DATABASE ERROR: " ++ e)], threw := false }
    ∧ postedTexts (replyCallback bot chanId (Except.error e)).effects = [] :=
  ⟨rfl, rfl⟩

/-- C10: for a successful glossary lookup whose originating message
carries a channel id absent from the roster, channel-by-id resolution
yields no channel object and the reply path throws on `channel.name` —
the reply step is not total over roster-absent channel ids (and posts
nothing). -/
theorem c10_absent_channel_reply_throws (bot : BotState) (cid : String) (rows : List Row)
    (h : ∀ c ∈ bot.channels, c.id ≠ cid) :
    getChannelById bot.channels (some cid) = none
    ∧ (replyCallback bot (some cid) (Except.ok rows)).threw = true
    ∧ postedTexts (replyCallback bot (some cid) (Except.ok rows)).effects = [] := by
  have hg : getChannelById bot.channels (some cid) = none := by
    unfold getChannelById
    rw [List.head?_eq_none_iff, List.filter_eq_nil_iff]
    intro c hc
    simpa using h c hc
  have hr : replyCallback bot (some cid) (Except.ok rows) = { effects := [], threw := true } := by
    unfold replyCallback
    rw [hg]
  exact ⟨hg, by rw [hr], by rw [hr]; rfl⟩

/-- Witness for C10: channel id `C999` is not in the demo roster; the
reply path throws and posts nothing. -/
theorem c10_absent_channel_reply_throws_witness :
    getChannelById demoBot.channels (some "C999") = none
    ∧ (replyCallback demoBot (some "C999") (Except.ok [])).threw = true
    ∧ postedTexts (replyCallback demoBot (some "C999") (Except.ok [])).effects = [] :=
  c10_absent_channel_reply_throws demoBot "C999" [] (by decide)

end SaganBot
